import Mathlib

/-!
Shallow embedding of the Vulkan interop backend of mpv:
  src/video/out/vulkan/libmpv_vk.c   (init, wrap_fbo, done_frame, destroy)
  src/include/mpv/render_vk.h        (mpv_vulkan_init_params, mpv_vulkan_fbo,
                                      mpv_vulkan_sync)

Modelling conventions:
- Vulkan object handles and C pointers are `Nat`, with 0 standing for
  NULL / VK_NULL_HANDLE.
- Calls into the external libplacebo capability layer (mppl_log_create,
  pl_vulkan_import, ra_create_pl, pl_vulkan_wrap, mppl_wrap_tex) are
  oracles: an `Env` record says whether each call succeeds.  Each embedded
  operation returns, besides its status code and state, a trace of the
  capability-layer calls it performed, in program order.
- mpv status codes (client.h is not part of this repository slice) are the
  symbolic enumeration `MpvError` with exactly the four codes this file
  produces.
-/

namespace LibmpvVk

/-- Vulkan handles and C pointers; 0 is NULL / VK_NULL_HANDLE. -/
abbrev VkHandle := Nat

/-- mpv_vulkan_init_params, render_vk.h lines 78-124.  The C field name
`instance` is a Lean keyword, hence `instance_h`. -/
structure mpv_vulkan_init_params where
  instance_h : VkHandle
  physical_device : VkHandle
  device : VkHandle
  graphics_queue : VkHandle
  graphics_queue_family : Nat
  get_instance_proc_addr : VkHandle
  features : VkHandle
deriving DecidableEq

/-- mpv_vulkan_fbo, render_vk.h lines 129-164. -/
structure mpv_vulkan_fbo where
  image : VkHandle
  image_view : VkHandle
  width : Nat
  height : Nat
  format : Nat
  current_layout : Nat
  target_layout : Nat
deriving DecidableEq

/-- mpv_vulkan_sync, render_vk.h lines 170-196. -/
structure mpv_vulkan_sync where
  wait_semaphore : VkHandle
  wait_value : Nat
  signal_semaphore : VkHandle
  signal_value : Nat
deriving DecidableEq

/-- The status codes produced by libmpv_vk.c: 0, MPV_ERROR_INVALID_PARAMETER,
MPV_ERROR_UNSUPPORTED and MPV_ERROR_GENERIC. -/
inductive MpvError where
  | success
  | invalidParameter
  | unsupported
  | generic
deriving DecidableEq

/-- Success oracles for the external capability-layer calls made by
libmpv_vk.c.  A false field means the corresponding call returns NULL /
false at its one call site. -/
structure Env where
  log_create_ok : Bool
  vulkan_import_ok : Bool
  ra_create_ok : Bool
  vulkan_wrap_ok : Bool
  mppl_wrap_ok : Bool
deriving DecidableEq

/-- VK_QUEUE_FAMILY_IGNORED (~0U). -/
def VK_QUEUE_FAMILY_IGNORED : Nat := 4294967295

/-- VK_IMAGE_USAGE_COLOR_ATTACHMENT_BIT = 0x10. -/
def VK_IMAGE_USAGE_COLOR_ATTACHMENT_BIT : Nat := 16

/-- VK_IMAGE_USAGE_TRANSFER_DST_BIT = 0x2. -/
def VK_IMAGE_USAGE_TRANSFER_DST_BIT : Nat := 2

/-- The fields of struct pl_vulkan_wrap_params that libmpv_vk.c fills in
(wrap_fbo, lines 121-128); this is also the record of what state the wrapped
texture carries. -/
structure pl_vulkan_wrap_params where
  image : VkHandle
  width : Nat
  height : Nat
  format : Nat
  usage : Nat
deriving DecidableEq

/-- One capability-layer call performed by the backend, recorded in program
order.  `semWait` and `semSignal` are the device-side semaphore operations
the synchronization documentation of render_vk.h speaks about; they are part
of the vocabulary so their absence from every trace can be stated. -/
inductive Event where
  | allocPriv
  | logCreate (ok : Bool)
  | vulkanImport (ok : Bool)
  | allocRaCtx
  | raCreate (ok : Bool)
  | vulkanWrap (ok : Bool)
  | vulkanRelease (layout : Nat) (qf : Nat)
  | mpplWrapTex (ok : Bool)
  | texDestroy
  | gpuFinish
  | semWait (sem : VkHandle) (value : Nat)
  | semSignal (sem : VkHandle) (value : Nat)
  | raDestroy
  | vulkanDestroy
  | logDestroy
deriving DecidableEq

/-- pl_gpu_finish blocks the calling thread until all submitted GPU work
retires; every other recorded call returns to the caller without waiting on
GPU completion. -/
def Event.blocksCaller : Event → Bool
  | .gpuFinish => true
  | _ => false

/-- Device-side semaphore wait or signal. -/
def Event.isDeviceSemOp : Event → Bool
  | .semWait _ _ => true
  | .semSignal _ _ => true
  | _ => false

/-- A call to pl_vulkan_import, successful or not. -/
def Event.isImportAttempt : Event → Bool
  | .vulkanImport _ => true
  | _ => false

/-- A failed call to pl_vulkan_import. -/
def Event.isFailedImport : Event → Bool
  | .vulkanImport ok => !ok
  | _ => false

/-- A failed call to ra_create_pl. -/
def Event.isFailedRaCreate : Event → Bool
  | .raCreate ok => !ok
  | _ => false

/-- A call to pl_vulkan_wrap, successful or not. -/
def Event.isWrapAttempt : Event → Bool
  | .vulkanWrap _ => true
  | _ => false

/-- struct priv, libmpv_vk.c lines 30-36.  Owned sub-object pointers become
Booleans (non-null or not); the inline proxy_tex slot records the parameters
of the texture wrapped into it, if any.  talloc_zero initializes every field
to 0/NULL, hence `priv.zero`. -/
structure priv where
  pllog : Bool
  vulkan : Bool
  gpu : Bool
  ra_ctx_alloc : Bool
  ra : Bool
  proxy_tex : Option pl_vulkan_wrap_params
deriving DecidableEq

/-- The zero-initialized struct priv produced by talloc_zero. -/
def priv.zero : priv :=
  { pllog := false, vulkan := false, gpu := false,
    ra_ctx_alloc := false, ra := false, proxy_tex := none }

/-- The ctx->priv pointer of struct libmpv_gpu_context; none is NULL. -/
structure CtxState where
  priv_p : Option priv
deriving DecidableEq

/-- The handle-validation condition of init, libmpv_vk.c lines 48-49:
!vk_params->instance || !vk_params->physical_device || !vk_params->device ||
!vk_params->graphics_queue. -/
def missing_handles (vk : mpv_vulkan_init_params) : Bool :=
  vk.instance_h == 0 || vk.physical_device == 0 ||
    vk.device == 0 || vk.graphics_queue == 0

/-- Return of init: status code, resulting context state, trace. -/
structure InitResult where
  status : MpvError
  st : CtxState
  trace : List Event
deriving DecidableEq

/-- init, libmpv_vk.c lines 38-103.  The params argument is the result of
get_mpv_render_param for MPV_RENDER_PARAM_VULKAN_INIT_PARAMS (none = the
caller supplied no init block).  The function allocates ctx->priv with
talloc_zero before any validation, then validates handles, creates the
libplacebo log, imports the device, allocates the ra_ctx and creates the ra;
each failing step returns immediately with the state built so far. -/
def init (params : Option mpv_vulkan_init_params) (env : Env) : InitResult :=
  let p := priv.zero
  match params with
  | none =>
      { status := .invalidParameter, st := ⟨some p⟩, trace := [.allocPriv] }
  | some vk =>
      if missing_handles vk then
        { status := .invalidParameter, st := ⟨some p⟩, trace := [.allocPriv] }
      else if !env.log_create_ok then
        { status := .generic, st := ⟨some p⟩,
          trace := [.allocPriv, .logCreate false] }
      else
        let p := { p with pllog := true }
        if !env.vulkan_import_ok then
          { status := .unsupported, st := ⟨some p⟩,
            trace := [.allocPriv, .logCreate true, .vulkanImport false] }
        else
          let p := { p with vulkan := true, gpu := true, ra_ctx_alloc := true }
          if !env.ra_create_ok then
            { status := .unsupported, st := ⟨some p⟩,
              trace := [.allocPriv, .logCreate true, .vulkanImport true,
                        .allocRaCtx, .raCreate false] }
          else
            let p := { p with ra := true }
            { status := .success, st := ⟨some p⟩,
              trace := [.allocPriv, .logCreate true, .vulkanImport true,
                        .allocRaCtx, .raCreate true] }

/-- The FBO-validation condition of wrap_fbo, libmpv_vk.c line 115:
!fbo->image || !fbo->width || !fbo->height. -/
def invalid_fbo (fbo : mpv_vulkan_fbo) : Bool :=
  fbo.image == 0 || fbo.width == 0 || fbo.height == 0

/-- Return of wrap_fbo: status code, updated struct priv, the *out argument
(some = set to the proxy slot, carrying the wrapped-texture state), trace. -/
structure WrapResult where
  status : MpvError
  priv_p : priv
  out : Option pl_vulkan_wrap_params
  trace : List Event
deriving DecidableEq

/-- wrap_fbo, libmpv_vk.c lines 105-153.  The fbo argument is the result of
get_mpv_render_param for MPV_RENDER_PARAM_VULKAN_FBO.  After validation it
calls pl_vulkan_wrap with image, width, height, format from the FBO and the
fixed usage COLOR_ATTACHMENT | TRANSFER_DST, then pl_vulkan_release_ex with
the caller-declared current_layout and VK_QUEUE_FAMILY_IGNORED, then
mppl_wrap_tex into the proxy_tex slot; if that fails the wrapped texture is
destroyed with pl_tex_destroy and MPV_ERROR_GENERIC is returned. -/
def wrap_fbo (p : priv) (fbo? : Option mpv_vulkan_fbo) (env : Env) :
    WrapResult :=
  match fbo? with
  | none =>
      { status := .invalidParameter, priv_p := p, out := none, trace := [] }
  | some fbo =>
      if invalid_fbo fbo then
        { status := .invalidParameter, priv_p := p, out := none, trace := [] }
      else
        let wp : pl_vulkan_wrap_params :=
          { image := fbo.image, width := fbo.width, height := fbo.height,
            format := fbo.format,
            usage := VK_IMAGE_USAGE_COLOR_ATTACHMENT_BIT +
                     VK_IMAGE_USAGE_TRANSFER_DST_BIT }
        if !env.vulkan_wrap_ok then
          { status := .generic, priv_p := p, out := none,
            trace := [.vulkanWrap false] }
        else if !env.mppl_wrap_ok then
          { status := .generic, priv_p := p, out := none,
            trace := [.vulkanWrap true,
                      .vulkanRelease fbo.current_layout VK_QUEUE_FAMILY_IGNORED,
                      .mpplWrapTex false, .texDestroy] }
        else
          { status := .success, priv_p := { p with proxy_tex := some wp },
            out := some wp,
            trace := [.vulkanWrap true,
                      .vulkanRelease fbo.current_layout VK_QUEUE_FAMILY_IGNORED,
                      .mpplWrapTex true] }

/-- done_frame, libmpv_vk.c lines 155-161.  The body is a single
unconditional call to pl_gpu_finish.  The ds flag is never read, and no code
in this repository reads a mpv_vulkan_sync block: the sync argument stands
for whatever per-frame sync block the caller supplied via
MPV_RENDER_PARAM_VULKAN_SYNC, which the source cannot and does not
consult. -/
def done_frame (_p : priv) (_ds : Bool) (_sync : Option mpv_vulkan_sync) :
    List Event :=
  [Event.gpuFinish]

/-- Return of destroy: resulting context state and trace of releases. -/
structure DestroyResult where
  st : CtxState
  trace : List Event
deriving DecidableEq

/-- destroy, libmpv_vk.c lines 163-179.  Returns immediately when ctx->priv
is NULL.  Otherwise destroys the ra (guarded by p->ra_ctx && p->ra_ctx->ra,
then nulls the pointer), then the pl_vulkan object (guarded by p->vulkan;
pl_vulkan_destroy nulls the pointer), then calls pl_log_destroy(&p->pllog),
which per the libplacebo contract is a no-op on a NULL log and always nulls
the pointer.  The trace records only actual destructions, so a release event
appears exactly when the sub-object existed. -/
def destroy (st : CtxState) : DestroyResult :=
  match st.priv_p with
  | none => { st := st, trace := [] }
  | some p =>
      let pa := if p.ra_ctx_alloc && p.ra then { p with ra := false } else p
      let ea : List Event :=
        if p.ra_ctx_alloc && p.ra then [.raDestroy] else []
      let pb := if pa.vulkan then { pa with vulkan := false } else pa
      let eb : List Event := if pa.vulkan then [.vulkanDestroy] else []
      let pc := { pb with pllog := false }
      let ec : List Event := if pb.pllog then [.logDestroy] else []
      { st := ⟨some pc⟩, trace := ea ++ eb ++ ec }

/-- A release event is of a sub-object actually constructed in the given
state: raDestroy needs a live ra below a live ra_ctx, vulkanDestroy a live
pl_vulkan, logDestroy a live pl_log; anything else never counts. -/
def constructedIn (st : CtxState) : Event → Bool
  | .raDestroy =>
      match st.priv_p with
      | some p => p.ra_ctx_alloc && p.ra
      | none => false
  | .vulkanDestroy =>
      match st.priv_p with
      | some p => p.vulkan
      | none => false
  | .logDestroy =>
      match st.priv_p with
      | some p => p.pllog
      | none => false
  | _ => false

/-- An environment in which every capability-layer call succeeds. -/
def env_all_ok : Env :=
  { log_create_ok := true, vulkan_import_ok := true, ra_create_ok := true,
    vulkan_wrap_ok := true, mppl_wrap_ok := true }

/-- An environment in which pl_vulkan_import fails and everything else
succeeds. -/
def env_import_fails : Env :=
  { log_create_ok := true, vulkan_import_ok := false, ra_create_ok := true,
    vulkan_wrap_ok := true, mppl_wrap_ok := true }

/-- An environment in which mppl_wrap_tex fails and everything else
succeeds. -/
def env_mppl_fails : Env :=
  { log_create_ok := true, vulkan_import_ok := true, ra_create_ok := true,
    vulkan_wrap_ok := true, mppl_wrap_ok := false }

/-- An init block with all four mandatory handles present. -/
def good_init_params : mpv_vulkan_init_params :=
  { instance_h := 1, physical_device := 2, device := 3, graphics_queue := 4,
    graphics_queue_family := 0, get_instance_proc_addr := 0, features := 0 }

/-- An init block whose instance handle is NULL. -/
def bad_init_params : mpv_vulkan_init_params :=
  { instance_h := 0, physical_device := 2, device := 3, graphics_queue := 4,
    graphics_queue_family := 0, get_instance_proc_addr := 0, features := 0 }

/-- A valid FBO block: non-null image, positive extent. -/
def good_fbo : mpv_vulkan_fbo :=
  { image := 5, image_view := 6, width := 640, height := 480, format := 44,
    current_layout := 2, target_layout := 1000001002 }

/-- C1: whatever per-frame sync block the caller supplies, ending a frame
executes exactly the blocking completion wait pl_gpu_finish: the trace
contains a call that blocks the calling thread and contains no device-side
semaphore wait or signal.  This contradicts the claim that with semaphores
supplied the thread is not blocked and device-side wait/signal operations
are inserted. -/
theorem done_frame_always_blocks (p : priv) (ds : Bool)
    (sync : mpv_vulkan_sync) :
    done_frame p ds (some sync) = [Event.gpuFinish] ∧
    (done_frame p ds (some sync)).any Event.isDeviceSemOp = false ∧
    (done_frame p ds (some sync)).any Event.blocksCaller = true :=
  ⟨rfl, rfl, rfl⟩

/-- C2: the binding path never reads the target_layout field of the FBO
block — changing it changes nothing about the result, the updated state or
the trace of capability-layer calls.  Since done_frame likewise performs
only pl_gpu_finish, no transition of the image to the requested post-render
layout is ever issued, contradicting the claim that the wrapped target ends
the frame in layout L1. -/
theorem wrap_fbo_ignores_target_layout (p : priv) (fbo : mpv_vulkan_fbo)
    (env : Env) (t : Nat) :
    wrap_fbo p (some { fbo with target_layout := t }) env =
      wrap_fbo p (some fbo) env := by
  cases fbo
  rfl

/-- C3 counterexample: with the instance handle NULL, init returns
InvalidParameter but has already allocated the private context struct
(talloc_zero runs before validation, so ctx->priv is non-null afterward) —
the claim that nothing is allocated fails. -/
theorem init_missing_handle_allocates_priv :
    (init (some bad_init_params) env_all_ok).status =
      MpvError.invalidParameter ∧
    (init (some bad_init_params) env_all_ok).st.priv_p ≠ none ∧
    Event.allocPriv ∈ (init (some bad_init_params) env_all_ok).trace := by
  decide

/-- C3 amended: for every init block missing a mandatory handle, init
returns InvalidParameter having allocated only the zeroed private struct —
no owned sub-object (no log, no capability object, no rendering
abstraction) — and a subsequent destroy releases nothing and leaves the
state unchanged. -/
theorem init_missing_handle_no_subobjects (vk : mpv_vulkan_init_params)
    (env : Env) (h : missing_handles vk = true) :
    (init (some vk) env).status = MpvError.invalidParameter ∧
    (init (some vk) env).st = ⟨some priv.zero⟩ ∧
    (init (some vk) env).trace = [Event.allocPriv] ∧
    (destroy (init (some vk) env).st).trace = [] ∧
    (destroy (init (some vk) env).st).st = (init (some vk) env).st := by
  simp [init, h, destroy, priv.zero]

/-- C3 amended, witness at the concrete init block with a NULL instance. -/
theorem init_missing_handle_no_subobjects_witness :
    missing_handles bad_init_params = true ∧
    ((init (some bad_init_params) env_all_ok).status =
        MpvError.invalidParameter ∧
     (init (some bad_init_params) env_all_ok).st = ⟨some priv.zero⟩ ∧
     (init (some bad_init_params) env_all_ok).trace = [Event.allocPriv] ∧
     (destroy (init (some bad_init_params) env_all_ok).st).trace = [] ∧
     (destroy (init (some bad_init_params) env_all_ok).st).st =
        (init (some bad_init_params) env_all_ok).st) :=
  ⟨by decide,
   init_missing_handle_no_subobjects bad_init_params env_all_ok (by decide)⟩

/-- C4: given a supplied init block, init returns InvalidParameter exactly
when one of the four mandatory handles is NULL, and pl_vulkan_import is
attempted exactly when the handles are all present and the log was created —
in particular the handle check precedes any import attempt. -/
theorem init_invalid_iff_missing_handles (vk : mpv_vulkan_init_params)
    (env : Env) :
    ((init (some vk) env).status = MpvError.invalidParameter ↔
      missing_handles vk = true) ∧
    ((init (some vk) env).trace.any Event.isImportAttempt =
      (!missing_handles vk && env.log_create_ok)) := by
  obtain ⟨l, im, r, w, m⟩ := env
  by_cases h : missing_handles vk = true <;>
    cases l <;> cases im <;> cases r <;>
    simp_all [init, Event.isImportAttempt]

/-- C5: with all four mandatory handles present, init returns Unsupported
exactly when the trace records a failed pl_vulkan_import or a failed
ra_create_pl (the construction of the rendering abstraction from the derived
GPU handle). -/
theorem init_unsupported_iff_import_or_ra_failed
    (vk : mpv_vulkan_init_params) (env : Env)
    (h : missing_handles vk = false) :
    (init (some vk) env).status = MpvError.unsupported ↔
      ((init (some vk) env).trace.any Event.isFailedImport = true ∨
       (init (some vk) env).trace.any Event.isFailedRaCreate = true) := by
  obtain ⟨l, im, r, w, m⟩ := env
  cases l <;> cases im <;> cases r <;>
    simp_all [init, Event.isFailedImport, Event.isFailedRaCreate]

/-- C5, witness at a fully populated init block in an environment where
pl_vulkan_import fails. -/
theorem init_unsupported_iff_import_or_ra_failed_witness :
    missing_handles good_init_params = false ∧
    ((init (some good_init_params) env_import_fails).status =
        MpvError.unsupported ↔
      ((init (some good_init_params) env_import_fails).trace.any
          Event.isFailedImport = true ∨
       (init (some good_init_params) env_import_fails).trace.any
          Event.isFailedRaCreate = true)) :=
  ⟨by decide,
   init_unsupported_iff_import_or_ra_failed good_init_params env_import_fails
     (by decide)⟩

/-- C6: given a supplied target block, wrap_fbo returns InvalidParameter
exactly when the image is NULL or the width or height is zero; on that path
the trace is empty (no capability-layer call, hence no allocation), and
pl_vulkan_wrap is attempted exactly when validation passes. -/
theorem wrap_fbo_invalid_iff (p : priv) (fbo : mpv_vulkan_fbo) (env : Env) :
    ((wrap_fbo p (some fbo) env).status = MpvError.invalidParameter ↔
      invalid_fbo fbo = true) ∧
    ((wrap_fbo p (some fbo) env).trace = [] ↔ invalid_fbo fbo = true) ∧
    ((wrap_fbo p (some fbo) env).trace.any Event.isWrapAttempt =
      !invalid_fbo fbo) := by
  obtain ⟨l, im, r, w, m⟩ := env
  by_cases h : invalid_fbo fbo = true <;> cases w <;> cases m <;>
    simp_all [wrap_fbo, Event.isWrapAttempt]

/-- C7: when pl_vulkan_wrap succeeds but mppl_wrap_tex fails, wrap_fbo
returns Generic, the trace records the pl_tex_destroy of the wrapped
texture, the out argument is not set and the proxy slot is unchanged — the
partial-failure path leaks no resource. -/
theorem wrap_fbo_partial_failure_destroys_tex (p : priv)
    (fbo : mpv_vulkan_fbo) (env : Env)
    (hv : invalid_fbo fbo = false)
    (hw : env.vulkan_wrap_ok = true)
    (hm : env.mppl_wrap_ok = false) :
    (wrap_fbo p (some fbo) env).status = MpvError.generic ∧
    Event.texDestroy ∈ (wrap_fbo p (some fbo) env).trace ∧
    (wrap_fbo p (some fbo) env).out = none ∧
    (wrap_fbo p (some fbo) env).priv_p = p := by
  simp [wrap_fbo, hv, hw, hm]

/-- C7, witness at a valid FBO in an environment where only mppl_wrap_tex
fails. -/
theorem wrap_fbo_partial_failure_destroys_tex_witness :
    invalid_fbo good_fbo = false ∧
    env_mppl_fails.vulkan_wrap_ok = true ∧
    env_mppl_fails.mppl_wrap_ok = false ∧
    ((wrap_fbo priv.zero (some good_fbo) env_mppl_fails).status =
        MpvError.generic ∧
     Event.texDestroy ∈
        (wrap_fbo priv.zero (some good_fbo) env_mppl_fails).trace ∧
     (wrap_fbo priv.zero (some good_fbo) env_mppl_fails).out = none ∧
     (wrap_fbo priv.zero (some good_fbo) env_mppl_fails).priv_p =
        priv.zero) :=
  ⟨by decide, by decide, by decide,
   wrap_fbo_partial_failure_destroys_tex priv.zero good_fbo env_mppl_fails
     (by decide) (by decide) (by decide)⟩

/-- C8: after init stops at any of its return points (any params, any
environment), destroy releases only sub-objects actually constructed in that
state — every release event in its trace is of a constructed sub-object —
and destroy is idempotent: a second destroy releases nothing.  Crash-freedom
is the totality of the embedded destroy on every such state, mirroring the
null checks of the source. -/
theorem destroy_safe_after_any_init (params : Option mpv_vulkan_init_params)
    (env : Env) :
    ((destroy (init params env).st).trace.all
        (constructedIn (init params env).st) = true) ∧
    (destroy (destroy (init params env).st).st).trace = [] := by
  obtain ⟨l, im, r, w, m⟩ := env
  cases params with
  | none => simp [init, destroy, constructedIn, priv.zero]
  | some vk =>
      by_cases h : missing_handles vk = true <;>
        cases l <;> cases im <;> cases r <;>
        simp_all [init, destroy, constructedIn, priv.zero]

/-- C9: from every state init can leave behind, destroy releases the owned
sub-objects as a subsequence of [ra context, capability object, logging
context] — strict reverse of construction order — and from a fully
successful init it releases exactly that sequence. -/
theorem destroy_reverse_order (params : Option mpv_vulkan_init_params)
    (env : Env) :
    List.Sublist (destroy (init params env).st).trace
      [Event.raDestroy, Event.vulkanDestroy, Event.logDestroy] ∧
    (destroy (init (some good_init_params) env_all_ok).st).trace =
      [Event.raDestroy, Event.vulkanDestroy, Event.logDestroy] := by
  refine ⟨?_, by decide⟩
  obtain ⟨l, im, r, w, m⟩ := env
  cases params with
  | none => simp [init, destroy, priv.zero]
  | some vk =>
      by_cases h : missing_handles vk = true <;>
        cases l <;> cases im <;> cases r <;>
        simp_all [init, destroy, priv.zero]

/-- C10: the binding path never reads the image_view field of the FBO block:
two target blocks differing only in image_view produce identical results —
same status, same updated state (including the wrapped-texture slot), same
out argument, same trace. -/
theorem wrap_fbo_ignores_image_view (p : priv) (fbo : mpv_vulkan_fbo)
    (env : Env) (v : VkHandle) :
    wrap_fbo p (some { fbo with image_view := v }) env =
      wrap_fbo p (some fbo) env := by
  cases fbo
  rfl

end LibmpvVk
